import Mathlib

/-
Shallow embedding of `teuthology/provision/fog.py` (class `FOG`), the
driver that reimages bare-metal machines through the FOG imaging service.

Modelling conventions:
  - JSON search responses become plain records holding the fields the code
    reads (`count`, the record lists, task `id`/`host.name`/`createdTime`).
  - Timestamps are modelled as integer seconds.  The source parses
    `createdTime` with `datetime.strptime` (whole seconds) and subtracts it
    from `datetime.utcnow()`; the only use is the comparison
    `time_delta < 5`, whose behaviour on the inputs of interest is
    captured by integer arithmetic.  `utcnow()` is sampled once per loop
    iteration in the source; it is modelled as a single instant `now`.
  - Python exceptions become constructors of an error type.  The source
    raises bare `RuntimeError`s with fixed messages and, at two sites,
    lets list indexing raise `IndexError`; each raising site gets its own
    constructor.
  - HTTP transport and `raise_for_status` are out of scope (the spec
    treats the transport as an external collaborator); the environment
    supplies already-parsed response bodies.
-/

set_option autoImplicit false

namespace Fog

/-- A remote-service host record; the code only reads its `id`
(`int(host_data["id"])`). -/
structure FogHost where
  id : Int
  deriving Repr, DecidableEq

/-- A remote-service image record; the code only reads its `id`. -/
structure FogImage where
  id : Int
  deriving Repr, DecidableEq

/-- A task-type record from `/tasktype/search/deploy`: the code reads
`name` (for the case-insensitive match) and `id`. -/
structure TaskType where
  id : Int
  name : String
  deriving Repr, DecidableEq

/-- An entry of the `/task/active` listing: the code reads `id`,
`host.name` (flattened here to `hostName`) and `createdTime`. -/
structure ActiveTask where
  id : Int
  hostName : String
  createdTime : Int
  deriving Repr, DecidableEq

/-- Response body of `GET /host/search/<shortname>`. -/
structure HostSearchResp where
  count : Nat
  hosts : List FogHost
  deriving Repr, DecidableEq

/-- Response body of `GET /image/search/<name>`. -/
structure ImageSearchResp where
  count : Nat
  images : List FogImage
  deriving Repr, DecidableEq

/-- The state a `FOG` object carries (fields set in `__init__` that the
modelled methods read). -/
structure FOGState where
  name : String
  shortname : String
  os_type : String
  os_version : String
  machine_type : String
  user : String
  deriving Repr, DecidableEq

/-- Errors raised by the modelled methods.  `hostNotFound`, `ambiguousHost`
and `imageNotFound` are the `RuntimeError`s of `get_host_data` and
`get_image_data`; `taskTypeNotFound` is the `IndexError` that
`tasktypes[0]` raises in `schedule_deploy_task` when the filtered list is
empty; `indexError` is the `IndexError` that `obj[...][0]` would raise on
an empty record list. -/
inductive FogError where
  | hostNotFound
  | ambiguousHost
  | imageNotFound
  | taskTypeNotFound
  | indexError
  deriving Repr, DecidableEq

/-- Python `str.lower()`, modelled per character over the underlying
character list (`Char.toLower` lowercases the ASCII range, which covers
the OS-type and task-type names the code compares; the core library
function of the same name is defined by well-founded recursion over
positions and computes the same characters). -/
def pyLower (s : String) : String := ⟨s.data.map Char.toLower⟩

/-- `FOG.get_host_data`: `count == 0` raises host-not-found,
`count > 1` raises more-than-one-host, otherwise returns `hosts[0]`. -/
def get_host_data (resp : HostSearchResp) : Except FogError FogHost :=
  if resp.count = 0 then .error .hostNotFound
  else if resp.count > 1 then .error .ambiguousHost
  else
    match resp.hosts with
    | [] => .error .indexError
    | h :: _ => .ok h

/-- The image-search key of `FOG.get_image_data`:
`name = "_".join([self.machine_type, self.os_type.lower(), self.os_version])`. -/
def imageSearchName (s : FOGState) : String :=
  "_".intercalate [s.machine_type, pyLower s.os_type, s.os_version]

/-- The URL suffix `"/image/search/%s" % name` used for the image search. -/
def imageSearchPath (s : FOGState) : String :=
  "/image/search/" ++ imageSearchName s

/-- `FOG.get_image_data` after the request: `if not obj["count"]` raises
image-not-found, otherwise returns `images[0]`. -/
def get_image_data (resp : ImageSearchResp) : Except FogError FogImage :=
  if resp.count = 0 then .error .imageNotFound
  else
    match resp.images with
    | [] => .error .indexError
    | img :: _ => .ok img

/-- The task-type lookup at the start of `FOG.schedule_deploy_task`:
filter the search results to entries with `obj["name"].lower() == "deploy"`
and take element 0 (an empty filter makes `tasktypes[0]` raise). -/
def findDeployTasktype (tasktypes : List TaskType) : Except FogError TaskType :=
  match tasktypes.filter (fun t => pyLower t.name == "deploy") with
  | [] => .error .taskTypeNotFound
  | t :: _ => .ok t

/-- `FOG.get_deploy_tasks`: the `/task/active` listing filtered to tasks
whose `host.name` equals `self.shortname`. -/
def get_deploy_tasks (s : FOGState) (tasks : List ActiveTask) : List ActiveTask :=
  tasks.filter (fun t => t.hostName == s.shortname)

/-- The correlation loop at the end of `FOG.schedule_deploy_task`: walk the
host tasks in order and return the id of the first one whose
`(utcnow() - createdTime).total_seconds() < 5`; falling off the loop
returns Python `None`, modelled as `none`. -/
def correlateLoop (now : Int) : List ActiveTask → Option Int
  | [] => none
  | t :: rest =>
    if now - t.createdTime < 5 then some t.id
    else correlateLoop now rest

/-- `FOG.schedule_deploy_task`: look up the deploy task-type (raising when
absent), issue the schedule POST (no modelled effect; the API returns no
task id), then correlate against the current active listing. -/
def schedule_deploy_task (s : FOGState) (tasktypes : List TaskType)
    (now : Int) (tasks : List ActiveTask) : Except FogError (Option Int) :=
  match findDeployTasktype tasktypes with
  | .error e => .error e
  | .ok _ => .ok (correlateLoop now (get_deploy_tasks s tasks))

/-- `FOG.deploy_task_active`: `any(task["id"] == task_id for task in
host_tasks)`.  `task_id` may be Python `None` (the value the correlation
loop returns when nothing qualifies), in which case the comparison with
every real id is `False`. -/
def deploy_task_active (s : FOGState) (task_id : Option Int)
    (tasks : List ActiveTask) : Bool :=
  (get_deploy_tasks s tasks).any (fun t => some t.id == task_id)

/-- A retry policy: the `sleep=` and `tries=` arguments of `safe_while`. -/
structure RetryPolicy where
  sleepInterval : Nat
  maxAttempts : Nat
  deriving Repr, DecidableEq

/-- Outcome of a bounded polling loop.  `success checks sleeps` means the
condition held on check number `checks` (so `checks` condition
invocations were made and `sleeps` sleeps happened between them);
`exhausted attempts sleeps` means every one of the `attempts` checks
failed and the retry-exhaustion error was raised carrying that count. -/
inductive PollResult where
  | success (checks : Nat) (sleeps : Nat)
  | exhausted (attempts : Nat) (sleeps : Nat)
  deriving Repr, DecidableEq

/-- Number of condition invocations a poll outcome records. -/
def PollResult.checks : PollResult → Nat
  | .success c _ => c
  | .exhausted a _ => a

/-- Modelled from the spec: the Bounded Retry Poller (`safe_while` of
`teuthology.contextutil`, whose source is not under `src/`).  Per the
spec it invokes the condition and, if not satisfied, sleeps the fixed
interval and retries, up to `maxAttempts` times; it terminates
successfully at the first satisfied check and fails with a
retry-exhaustion error carrying the number of attempts made when the
budget runs out.  `cond i` is the outcome of the check on attempt `i`
(0-based); `rem` is the remaining attempt budget. -/
def pollFrom (cond : Nat → Bool) (i : Nat) : Nat → PollResult
  | 0 => .exhausted 0 0
  | rem + 1 =>
    if cond i then .success 1 0
    else
      match rem with
      | 0 => .exhausted 1 0
      | _ + 1 =>
        match pollFrom cond (i + 1) rem with
        | .success c n => .success (c + 1) (n + 1)
        | .exhausted c n => .exhausted (c + 1) (n + 1)

/-- Modelled from the spec: run the Bounded Retry Poller under a policy. -/
def safe_while (p : RetryPolicy) (cond : Nat → Bool) : PollResult :=
  pollFrom cond 0 p.maxAttempts

/-- The deploy-task-wait policy: `safe_while(sleep=15, tries=40)`. -/
def deployWaitPolicy : RetryPolicy := ⟨15, 40⟩

/-- The reachability-wait policy: `safe_while(sleep=6, tries=20)`. -/
def readyPolicy : RetryPolicy := ⟨6, 20⟩

/-- `FOG.wait_for_deploy_task`: poll until `deploy_task_active` is false.
`activeLists i` is the `/task/active` listing returned on check `i`. -/
def wait_for_deploy_task (s : FOGState) (task_id : Option Int)
    (activeLists : Nat → List ActiveTask) : PollResult :=
  safe_while deployWaitPolicy
    (fun i => !(deploy_task_active s task_id (activeLists i)))

/-- The exception kinds a connection attempt can raise, matching the
`except` clause of `FOG._wait_for_ready`: `socket.error`,
`NoValidConnectionsError`, `AuthenticationException`, `MaxWhileTries`,
plus `other` for any exception outside that clause. -/
inductive ConnError where
  | socketError
  | noValidConnections
  | authException
  | maxWhileTries
  | other
  deriving Repr, DecidableEq

/-- Whether the `except (socket.error, NoValidConnectionsError,
AuthenticationException, MaxWhileTries)` clause of `_wait_for_ready`
catches the exception. -/
def caughtByReadyWait : ConnError → Bool
  | .socketError => true
  | .noValidConnections => true
  | .authException => true
  | .maxWhileTries => true
  | .other => false

/-- Outcome of one `self.remote.connect()` attempt. -/
inductive ConnOutcome where
  | connected
  | failed (e : ConnError)
  deriving Repr, DecidableEq

/-- A connection outcome that the reachability wait treats as progress or
as a transient failure: either it succeeded, or the raised exception is
in the caught set. -/
def transientOnly : ConnOutcome → Bool
  | .connected => true
  | .failed e => caughtByReadyWait e

/-- Outcome of the reachability wait.  `ready checks sleeps` is success on
check number `checks`; `timedOut attempts sleeps` is the
retry-exhaustion error after `attempts` failed checks; `raised e checks`
is an exception outside the `except` clause propagating from check
number `checks`. -/
inductive ReadyResult where
  | ready (checks : Nat) (sleeps : Nat)
  | timedOut (attempts : Nat) (sleeps : Nat)
  | raised (e : ConnError) (checks : Nat)
  deriving Repr, DecidableEq

/-- The loop body of `FOG._wait_for_ready`: try `self.remote.connect()`;
on success break; on an exception in the caught set fall through and let
the poller retry; any other exception propagates.  The poller itself is
modelled from the spec as in `pollFrom` (`safe_while` is not under
`src/`). -/
def readyWaitFrom (connect : Nat → ConnOutcome) (i : Nat) : Nat → ReadyResult
  | 0 => .timedOut 0 0
  | rem + 1 =>
    match connect i with
    | .connected => .ready 1 0
    | .failed e =>
      if caughtByReadyWait e then
        match rem with
        | 0 => .timedOut 1 0
        | _ + 1 =>
          match readyWaitFrom connect (i + 1) rem with
          | .ready c n => .ready (c + 1) (n + 1)
          | .timedOut c n => .timedOut (c + 1) (n + 1)
          | .raised e2 c => .raised e2 (c + 1)
      else .raised e 1

/-- `FOG._wait_for_ready`: the reachability wait under
`safe_while(sleep=6, tries=20)`. -/
def wait_for_ready (connect : Nat → ConnOutcome) : ReadyResult :=
  readyWaitFrom connect 0 readyPolicy.maxAttempts

/-- The external world one `create()` run interacts with: the parsed
responses of the remote service and the behaviour of the machine.
`activeTasks k` is the listing returned by the `k`-th call to
`/task/active` overall (call 0 is the correlation call inside
`schedule_deploy_task`; calls 1, 2, ... are the checks of
`wait_for_deploy_task`).  `connect k` is the outcome of the `k`-th
connection attempt of `_wait_for_ready`. -/
structure Env where
  hostResp : HostSearchResp
  imageResp : ImageSearchResp
  tasktypes : List TaskType
  now : Int
  activeTasks : Nat → List ActiveTask
  connect : Nat → ConnOutcome

/-- Externally visible steps of a `create()` run, in execution order. -/
inductive Ev where
  | hostSearch (shortname : String)
  | imageSearch (name : String)
  | assignImage (imageId : Int) (hostId : Int)
  | tasktypeSearch
  | scheduleTask (hostId : Int) (taskTypeId : Int)
  | listActive
  | powerOff
  | powerOn
  | connectAttempt
  deriving Repr, DecidableEq

/-- Ways `create()` can terminate with an exception: a `FogError` from the
lookups, the retry-exhaustion error of either wait (`MaxWhileTries`,
carrying the attempt count), or an uncaught exception from
`remote.connect()`. -/
inductive CreateError where
  | fog (e : FogError)
  | deployWaitExhausted (attempts : Nat)
  | readyWaitExhausted (attempts : Nat)
  | connRaised (e : ConnError)
  deriving Repr, DecidableEq

/-- Lift the outcome of `wait_for_deploy_task` into `create()`: success
yields the number of `/task/active` checks made, exhaustion the
`MaxWhileTries` error. -/
def runDeployWait : PollResult → Except CreateError Nat
  | .success c _ => .ok c
  | .exhausted a _ => .error (.deployWaitExhausted a)

/-- Lift the outcome of `_wait_for_ready` into `create()`. -/
def runReadyWait : ReadyResult → Except CreateError Nat
  | .ready c _ => .ok c
  | .timedOut a _ => .error (.readyWaitExhausted a)
  | .raised e _ => .error (.connRaised e)

/-- `FOG.create`: host lookup, then `set_image` (image lookup followed by
the assignment PUT), then `schedule_deploy_task` (task-type search,
schedule POST, one `/task/active` call and the correlation loop), then
`power_off` and `power_on`, then `wait_for_deploy_task`, then
`_wait_for_ready`.  The result of a successful run is the ordered trace
of externally visible steps. -/
def create (s : FOGState) (env : Env) : Except CreateError (List Ev) :=
  match get_host_data env.hostResp with
  | .error e => .error (.fog e)
  | .ok host =>
    match get_image_data env.imageResp with
    | .error e => .error (.fog e)
    | .ok image =>
      match findDeployTasktype env.tasktypes with
      | .error e => .error (.fog e)
      | .ok tt =>
        match runDeployWait (wait_for_deploy_task s
            (correlateLoop env.now (get_deploy_tasks s (env.activeTasks 0)))
            (fun i => env.activeTasks (i + 1))) with
        | .error e => .error e
        | .ok dwChecks =>
          match runReadyWait (wait_for_ready env.connect) with
          | .error e => .error e
          | .ok rwChecks =>
            .ok ([Ev.hostSearch s.shortname, Ev.imageSearch (imageSearchName s),
                  Ev.assignImage image.id host.id, Ev.tasktypeSearch,
                  Ev.scheduleTask host.id tt.id, Ev.listActive,
                  Ev.powerOff, Ev.powerOn]
                 ++ List.replicate dwChecks Ev.listActive
                 ++ List.replicate rwChecks Ev.connectAttempt)

/-- A sample FOG object state: machine `cephtest-042` of type `smithi`
being reimaged to ubuntu 20.04. -/
def sEx : FOGState :=
  ⟨"cephtest-042.front.sepia.ceph.com", "cephtest-042", "ubuntu", "20.04",
   "smithi", "ubuntu"⟩

/-- A sample active-task listing seen at correlation time `100`: one task
for a different host, then for the target host one task 10 seconds old,
one 3 seconds old and one with a timestamp 2 seconds in the future. -/
def tasksC1 : List ActiveTask :=
  [⟨400, "other-host", 99⟩, ⟨500, "cephtest-042", 90⟩,
   ⟨501, "cephtest-042", 97⟩, ⟨502, "cephtest-042", 102⟩]

/-- Sample `/task/active` listings for the deploy wait: the correlated
task `501` is still listed on checks 0 and 1 and gone from check 2 on. -/
def listsC3 : Nat → List ActiveTask :=
  fun i => if i < 2 then [⟨501, "cephtest-042", 97⟩] else []

/-- Sample connection outcomes for the reachability wait: a refused
connection, then an authentication race, then success. -/
def connectC4 : Nat → ConnOutcome :=
  fun i =>
    if i = 0 then .failed .socketError
    else if i = 1 then .failed .authException
    else .connected

/-- An environment in which every lookup succeeds but the active-task
listing is empty at correlation time, so the correlation loop matches
zero tasks and returns the nothing value. -/
def envC2 : Env :=
  ⟨⟨1, [⟨17⟩]⟩, ⟨1, [⟨9⟩]⟩, [⟨3, "Deploy"⟩], 100,
   fun _ => [], fun _ => .connected⟩

/-- An environment for a full successful run: correlation finds task
`501` (1 second old), the task stays active for one deploy-wait check
and is gone on the second, and the first connection attempt is refused
while the second succeeds. -/
def envC8 : Env :=
  ⟨⟨1, [⟨17⟩]⟩, ⟨1, [⟨9⟩]⟩, [⟨3, "Deploy"⟩], 100,
   fun i => if i ≤ 1 then [⟨501, "cephtest-042", 99⟩] else [],
   fun i => if i = 0 then .failed .socketError else .connected⟩

/-- The correlation loop is the first-match search with the
`time_delta < 5` predicate, mapped to the task id. -/
theorem correlateLoop_eq_find (now : Int) (l : List ActiveTask) :
    correlateLoop now l
      = (l.find? (fun t => decide (now - t.createdTime < 5))).map ActiveTask.id := by
  induction l with
  | nil => rfl
  | cons t rest ih =>
    by_cases h : now - t.createdTime < 5
    · simp [correlateLoop, List.find?_cons, h]
    · simp [correlateLoop, List.find?_cons, h, ih]

/-- If everything before `t` misses the window and `t` is inside it, the
correlation loop returns the id of `t`. -/
theorem correlateLoop_first_qualifier (now : Int) (l₁ l₂ : List ActiveTask)
    (t : ActiveTask) (h₁ : ∀ u ∈ l₁, ¬ (now - u.createdTime < 5))
    (h₂ : now - t.createdTime < 5) :
    correlateLoop now (l₁ ++ t :: l₂) = some t.id := by
  induction l₁ with
  | nil => simp [correlateLoop, h₂]
  | cons u us ih =>
    have hu : ¬ (now - u.createdTime < 5) := h₁ u (by simp)
    simpa [correlateLoop, hu] using ih (fun v hv => h₁ v (by simp [hv]))

/-- The poller makes at most `n` condition checks. -/
theorem pollFrom_checks_le (cond : Nat → Bool) (n : Nat) :
    ∀ i, (pollFrom cond i n).checks ≤ n := by
  induction n with
  | zero => intro i; simp [pollFrom, PollResult.checks]
  | succ m ih =>
    intro i
    simp only [pollFrom]
    by_cases h : cond i
    · simp [h, PollResult.checks]
    · simp only [h, Bool.false_eq_true, if_false]
      cases m with
      | zero => simp [PollResult.checks]
      | succ m2 =>
        have hrec := ih (i + 1)
        cases hp : pollFrom cond (i + 1) (m2 + 1) with
        | success c s =>
          rw [hp] at hrec
          simp [PollResult.checks] at hrec ⊢
          omega
        | exhausted c s =>
          rw [hp] at hrec
          simp [PollResult.checks] at hrec ⊢
          omega

/-- If the first `k` checks fail and check `k` succeeds inside the
budget, the poller stops successfully at check `k + 1` (0-based index
`k`), having slept `k` times and made no further calls. -/
theorem pollFrom_success_at (cond : Nat → Bool) :
    ∀ (k i n : Nat), k < n → (∀ j, j < k → cond (i + j) = false) →
      cond (i + k) = true → pollFrom cond i n = .success (k + 1) k := by
  intro k
  induction k with
  | zero =>
    intro i n hk hprev hc
    match n, hk with
    | m + 1, _ =>
      simp only [pollFrom]
      simp only [Nat.add_zero] at hc
      simp [hc]
  | succ k2 ih =>
    intro i n hk hprev hc
    match n, hk with
    | m + 1, hk =>
      have h0 : cond i = false := by simpa using hprev 0 (by omega)
      have hm : k2 < m := by omega
      simp only [pollFrom]
      simp only [h0, Bool.false_eq_true, if_false]
      match m, hm with
      | m2 + 1, hm =>
        have hrec := ih (i + 1) (m2 + 1) (by omega)
          (fun j hj => by
            have := hprev (j + 1) (by omega)
            simpa [Nat.add_assoc, Nat.add_comm 1 j] using this)
          (by
            have : i + 1 + k2 = i + (k2 + 1) := by omega
            rw [this]; exact hc)
        rw [hrec]

/-- If every check in the budget fails, the poller raises the
retry-exhaustion error after exactly `n` checks and `n - 1` sleeps. -/
theorem pollFrom_exhaust (cond : Nat → Bool) :
    ∀ (n i : Nat), 0 < n → (∀ j, j < n → cond (i + j) = false) →
      pollFrom cond i n = .exhausted n (n - 1) := by
  intro n
  induction n with
  | zero => omega
  | succ m ih =>
    intro i _ hall
    have h0 : cond i = false := by simpa using hall 0 (by omega)
    simp only [pollFrom]
    simp only [h0, Bool.false_eq_true, if_false]
    cases m with
    | zero => rfl
    | succ m2 =>
      have hrec := ih (i + 1) (by omega)
        (fun j hj => by
          have := hall (j + 1) (by omega)
          simpa [Nat.add_assoc, Nat.add_comm 1 j] using this)
      rw [hrec]
      simp

/-- A non-successful outcome that the reachability wait classifies as
transient is a failure with an exception in the caught set. -/
theorem transient_failed (o : ConnOutcome) (hne : o ≠ .connected)
    (ht : transientOnly o = true) :
    ∃ e, o = .failed e ∧ caughtByReadyWait e = true := by
  cases o with
  | connected => exact absurd rfl hne
  | failed e => exact ⟨e, rfl, ht⟩

/-- A successful reachability wait made at most `n` connection
attempts. -/
theorem readyWaitFrom_ready_checks_le (connect : Nat → ConnOutcome) :
    ∀ (n i c s : Nat), readyWaitFrom connect i n = .ready c s → c ≤ n := by
  intro n
  induction n with
  | zero => intro i c s h; simp [readyWaitFrom] at h
  | succ m ih =>
    intro i c s h
    simp only [readyWaitFrom] at h
    cases hconn : connect i with
    | connected =>
      rw [hconn] at h
      simp at h
      omega
    | failed e =>
      rw [hconn] at h
      by_cases hc : caughtByReadyWait e
      · simp only [hc, if_true] at h
        cases m with
        | zero => simp at h
        | succ m2 =>
          cases hrec : readyWaitFrom connect (i + 1) (m2 + 1) with
          | ready c2 s2 =>
            rw [hrec] at h
            simp at h
            have := ih (i + 1) c2 s2 hrec
            omega
          | timedOut c2 s2 => rw [hrec] at h; simp at h
          | raised e2 c2 => rw [hrec] at h; simp at h
      · simp [hc] at h

/-- If the first `k` connection attempts fail with caught (transient)
exceptions and attempt `k` connects inside the budget, the wait returns
success at check `k + 1` with `k` sleeps, all transient failures
swallowed. -/
theorem readyWaitFrom_ready_at (connect : Nat → ConnOutcome) :
    ∀ (k i n : Nat), k < n →
      (∀ j, j < k → connect (i + j) ≠ .connected ∧
        transientOnly (connect (i + j)) = true) →
      connect (i + k) = .connected →
      readyWaitFrom connect i n = .ready (k + 1) k := by
  intro k
  induction k with
  | zero =>
    intro i n hk hprev hc
    match n, hk with
    | m + 1, _ =>
      simp only [Nat.add_zero] at hc
      simp only [readyWaitFrom, hc]
  | succ k2 ih =>
    intro i n hk hprev hc
    match n, hk with
    | m + 1, hk =>
      obtain ⟨h0ne, h0t⟩ := hprev 0 (by omega)
      simp only [Nat.add_zero] at h0ne h0t
      obtain ⟨e, he, hcaught⟩ := transient_failed (connect i) h0ne h0t
      have hm : k2 < m := by omega
      simp only [readyWaitFrom, he, hcaught, if_true]
      match m, hm with
      | m2 + 1, hm =>
        have hrec := ih (i + 1) (m2 + 1) (by omega)
          (fun j hj => by
            have := hprev (j + 1) (by omega)
            simpa [Nat.add_assoc, Nat.add_comm 1 j] using this)
          (by
            have : i + 1 + k2 = i + (k2 + 1) := by omega
            rw [this]; exact hc)
        rw [hrec]

/-- If every connection attempt in the budget fails with a caught
(transient) exception, the wait raises the retry-exhaustion error after
exactly `n` attempts and `n - 1` sleeps. -/
theorem readyWaitFrom_exhaust (connect : Nat → ConnOutcome) :
    ∀ (n i : Nat), 0 < n →
      (∀ j, j < n → connect (i + j) ≠ .connected ∧
        transientOnly (connect (i + j)) = true) →
      readyWaitFrom connect i n = .timedOut n (n - 1) := by
  intro n
  induction n with
  | zero => omega
  | succ m ih =>
    intro i _ hall
    obtain ⟨h0ne, h0t⟩ := hall 0 (by omega)
    simp only [Nat.add_zero] at h0ne h0t
    obtain ⟨e, he, hcaught⟩ := transient_failed (connect i) h0ne h0t
    simp only [readyWaitFrom, he, hcaught, if_true]
    cases m with
    | zero => rfl
    | succ m2 =>
      have hrec := ih (i + 1) (by omega)
        (fun j hj => by
          have := hall (j + 1) (by omega)
          simpa [Nat.add_assoc, Nat.add_comm 1 j] using this)
      rw [hrec]
      simp

/-- As long as every attempt in the budget either connects or fails with
a caught exception, no exception propagates out of the wait. -/
theorem readyWaitFrom_no_raise (connect : Nat → ConnOutcome) :
    ∀ (n i : Nat), (∀ j, j < n → transientOnly (connect (i + j)) = true) →
      ∀ e c, readyWaitFrom connect i n ≠ .raised e c := by
  intro n
  induction n with
  | zero => intro i _ e c h; simp [readyWaitFrom] at h
  | succ m ih =>
    intro i hall e c h
    simp only [readyWaitFrom] at h
    cases hconn : connect i with
    | connected => rw [hconn] at h; simp at h
    | failed e2 =>
      rw [hconn] at h
      have ht : caughtByReadyWait e2 = true := by
        have := hall 0 (by omega)
        simpa [hconn, transientOnly] using this
      simp only [ht, if_true] at h
      cases m with
      | zero => simp at h
      | succ m2 =>
        cases hrec : readyWaitFrom connect (i + 1) (m2 + 1) with
        | ready c2 s2 => rw [hrec] at h; simp at h
        | timedOut c2 s2 => rw [hrec] at h; simp at h
        | raised e3 c3 =>
          rw [hrec] at h
          exact ih (i + 1)
            (fun j hj => by
              have := hall (j + 1) (by omega)
              simpa [Nat.add_assoc, Nat.add_comm 1 j] using this)
            e3 c3 hrec

/-- C5: for every host-search response, count 0 fails with the
host-not-found error, count greater than 1 fails with the ambiguous-host
error, and count exactly 1 returns the single listed host record. -/
theorem host_lookup_count_spec (resp : HostSearchResp) :
    (resp.count = 0 → get_host_data resp = .error .hostNotFound)
    ∧ (resp.count > 1 → get_host_data resp = .error .ambiguousHost)
    ∧ (∀ h : FogHost, resp.count = 1 → resp.hosts = [h] →
        get_host_data resp = .ok h) := by
  refine ⟨?_, ?_, ?_⟩
  · intro h0
    simp [get_host_data, h0]
  · intro h1
    have h0 : ¬ resp.count = 0 := by omega
    simp [get_host_data, h0, h1]
  · intro h hc hh
    simp [get_host_data, hc, hh]

/-- Witness for C5: a one-record response returns that record. -/
theorem host_lookup_count_spec_witness :
    get_host_data ⟨1, [⟨17⟩]⟩ = .ok ⟨17⟩ :=
  (host_lookup_count_spec ⟨1, [⟨17⟩]⟩).2.2 ⟨17⟩ rfl rfl

/-- C6: for every image-search response, count 0 fails with the
image-not-found error; for any nonzero count the first listed image is
returned, regardless of how many matched. -/
theorem image_lookup_count_spec (resp : ImageSearchResp) :
    (resp.count = 0 → get_image_data resp = .error .imageNotFound)
    ∧ (∀ (img : FogImage) (rest : List FogImage), resp.count ≠ 0 →
        resp.images = img :: rest → get_image_data resp = .ok img) := by
  constructor
  · intro h0
    simp [get_image_data, h0]
  · intro img rest hne hi
    simp [get_image_data, hne, hi]

/-- Witness for C6: a two-record response returns the first record. -/
theorem image_lookup_count_spec_witness :
    get_image_data ⟨2, [⟨9⟩, ⟨10⟩]⟩ = .ok ⟨9⟩ :=
  (image_lookup_count_spec ⟨2, [⟨9⟩, ⟨10⟩]⟩).2 ⟨9⟩ [⟨10⟩] (by decide) rfl

/-- C7: the deploy-task scheduling first resolves the deploy task-type by
a case-insensitive name match over the search results: when no result
has a name case-insensitively equal to "deploy" the lookup — and with it
the whole scheduling call — fails with the task-type-not-found error,
and any returned task-type is a listed result whose lowercased name is
"deploy". -/
theorem tasktype_lookup_spec (tts : List TaskType) :
    ((∀ t ∈ tts, pyLower t.name ≠ "deploy") →
        findDeployTasktype tts = .error .taskTypeNotFound)
    ∧ (∀ t : TaskType, findDeployTasktype tts = .ok t →
        t ∈ tts ∧ pyLower t.name = "deploy")
    ∧ (∀ (s : FOGState) (now : Int) (tasks : List ActiveTask),
        (∀ t ∈ tts, pyLower t.name ≠ "deploy") →
        schedule_deploy_task s tts now tasks = .error .taskTypeNotFound) := by
  have hnil : (∀ t ∈ tts, pyLower t.name ≠ "deploy") →
      tts.filter (fun t => pyLower t.name == "deploy") = [] := by
    intro hmiss
    rw [List.filter_eq_nil_iff]
    intro t ht
    simpa using hmiss t ht
  refine ⟨?_, ?_, ?_⟩
  · intro hmiss
    unfold findDeployTasktype
    rw [hnil hmiss]
  · intro t hok
    unfold findDeployTasktype at hok
    cases hf : tts.filter (fun t => pyLower t.name == "deploy") with
    | nil => rw [hf] at hok; cases hok
    | cons t0 rest =>
      rw [hf] at hok
      simp only [Except.ok.injEq] at hok
      subst hok
      have hmem : t0 ∈ tts.filter (fun t => pyLower t.name == "deploy") := by
        rw [hf]; exact List.mem_cons_self t0 rest
      have hmf := List.mem_filter.mp hmem
      exact ⟨hmf.1, by simpa using hmf.2⟩
  · intro s now tasks hmiss
    unfold schedule_deploy_task findDeployTasktype
    rw [hnil hmiss]

/-- Witness for C7: a search result with no deploy-named entry makes the
lookup fail. -/
theorem tasktype_lookup_spec_witness :
    findDeployTasktype [⟨1, "Capture"⟩] = .error .taskTypeNotFound :=
  (tasktype_lookup_spec [⟨1, "Capture"⟩]).1 (by decide)

/-- C9: the image-search key is the machine type, the lowercased OS type
and the OS version joined by underscores, and that exact key is the path
suffix of the image search. -/
theorem image_search_key_spec (s : FOGState) :
    imageSearchName s
      = s.machine_type ++ "_" ++ pyLower s.os_type ++ "_" ++ s.os_version
    ∧ imageSearchPath s = "/image/search/" ++ imageSearchName s :=
  ⟨rfl, rfl⟩

/-- C10: when correlation carried forward the nothing value as the task
id, the active check is false on any listing, so the deploy wait
succeeds on its very first check with no sleeps, consuming none of its
retry budget, and hands a success (not an error) back to `create`. -/
theorem none_task_wait_immediate (s : FOGState)
    (lists : Nat → List ActiveTask) (l : List ActiveTask) :
    deploy_task_active s none l = false
    ∧ wait_for_deploy_task s none lists = .success 1 0
    ∧ runDeployWait (wait_for_deploy_task s none lists) = .ok 1 := by
  have hfalse : ∀ l2 : List ActiveTask, deploy_task_active s none l2 = false := by
    intro l2
    apply List.any_eq_false.mpr
    intro t _
    simp
  have hw : wait_for_deploy_task s none lists = .success 1 0 := by
    have := pollFrom_success_at
      (fun k => !(deploy_task_active s none (lists k))) 0 0 40 (by omega)
      (by omega) (by simp [hfalse])
    simpa [wait_for_deploy_task, safe_while, deployWaitPolicy] using this
  exact ⟨hfalse l, hw, by rw [hw]; rfl⟩

/-- C1: the correlator considers only tasks whose host name equals the
target short name and returns, in service order, the id of the first of
those whose createdTime passes the window test `now - createdTime < 5`;
a task created 10 seconds before now fails the test and is excluded. -/
theorem correlator_host_filter_window_first (s : FOGState) (now : Int)
    (tasks : List ActiveTask) :
    (correlateLoop now (get_deploy_tasks s tasks)
      = ((tasks.filter (fun t => t.hostName == s.shortname)).find?
          (fun t => decide (now - t.createdTime < 5))).map ActiveTask.id)
    ∧ (∀ i : Int, correlateLoop now (get_deploy_tasks s tasks) = some i →
        ∃ t, t ∈ tasks ∧ t.hostName = s.shortname
          ∧ now - t.createdTime < 5 ∧ t.id = i)
    ∧ (∀ (l₁ l₂ : List ActiveTask) (t : ActiveTask),
        get_deploy_tasks s tasks = l₁ ++ t :: l₂ →
        (∀ u ∈ l₁, ¬ (now - u.createdTime < 5)) →
        now - t.createdTime < 5 →
        correlateLoop now (get_deploy_tasks s tasks) = some t.id)
    ∧ (∀ t : ActiveTask, now - t.createdTime = 10 →
        decide (now - t.createdTime < 5) = false) := by
  refine ⟨correlateLoop_eq_find now (get_deploy_tasks s tasks), ?_, ?_, ?_⟩
  · intro i hsome
    rw [correlateLoop_eq_find] at hsome
    cases hfind : (get_deploy_tasks s tasks).find?
        (fun t => decide (now - t.createdTime < 5)) with
    | none =>
      rw [hfind] at hsome
      cases hsome
    | some t =>
      rw [hfind] at hsome
      have hid : t.id = i := by simpa using hsome
      have hmem := List.mem_of_find?_eq_some hfind
      have hpred := List.find?_some hfind
      rw [show get_deploy_tasks s tasks
            = tasks.filter (fun t => t.hostName == s.shortname) from rfl] at hmem
      have hmem2 := List.mem_filter.mp hmem
      exact ⟨t, hmem2.1, by simpa using hmem2.2, by simpa using hpred, hid⟩
  · intro l₁ l₂ t heq hmiss ht
    rw [heq]
    exact correlateLoop_first_qualifier now l₁ l₂ t hmiss ht
  · intro t ht
    rw [ht]
    rfl

/-- Witness for C1: with tasks for another host, a 10-second-old task, a
3-second-old task and a future-stamped task, the correlator picks the
3-second-old one — the first for the target host inside the window. -/
theorem correlator_host_filter_window_first_witness :
    correlateLoop 100 (get_deploy_tasks sEx tasksC1) = some 501 :=
  (correlator_host_filter_window_first sEx 100 tasksC1).2.2.1
    [⟨500, "cephtest-042", 90⟩] [⟨502, "cephtest-042", 102⟩]
    ⟨501, "cephtest-042", 97⟩ (by decide) (by decide) (by decide)

/-- C2 counterexample: in `envC2` no active task qualifies (the listing
is empty at correlation time), yet no correlation failure is signalled:
`schedule_deploy_task` returns `.ok none` and `create` runs to
successful completion — power-cycling and entering both waits — instead
of stopping at a CorrelationFailed state. -/
theorem correlation_miss_not_fatal_cex :
    correlateLoop envC2.now (get_deploy_tasks sEx (envC2.activeTasks 0)) = none
    ∧ schedule_deploy_task sEx envC2.tasktypes envC2.now (envC2.activeTasks 0)
        = .ok none
    ∧ create sEx envC2 = .ok
        [Ev.hostSearch "cephtest-042", Ev.imageSearch "smithi_ubuntu_20.04",
         Ev.assignImage 9 17, Ev.tasktypeSearch, Ev.scheduleTask 17 3,
         Ev.listActive, Ev.powerOff, Ev.powerOn,
         Ev.listActive, Ev.connectAttempt] :=
  ⟨rfl, rfl, rfl⟩

/-- C2 amended: when no task for the host qualifies under the window, the
correlation step signals nothing; `schedule_deploy_task` returns
successfully carrying the nothing value as the task id, and the workflow
continues with it. -/
theorem correlation_miss_returns_none (s : FOGState) (tts : List TaskType)
    (now : Int) (tasks : List ActiveTask) (tt : TaskType)
    (hfound : findDeployTasktype tts = .ok tt)
    (hmiss : ∀ t ∈ get_deploy_tasks s tasks, ¬ (now - t.createdTime < 5)) :
    schedule_deploy_task s tts now tasks = .ok none := by
  unfold schedule_deploy_task
  rw [hfound]
  rw [correlateLoop_eq_find]
  rw [List.find?_eq_none.mpr (fun t ht => by simpa using hmiss t ht)]
  rfl

/-- Witness for C2: a host task 20 seconds old matches nothing, and the
scheduling call returns the nothing id without error. -/
theorem correlation_miss_returns_none_witness :
    schedule_deploy_task sEx [⟨3, "Deploy"⟩] 100 [⟨500, "cephtest-042", 80⟩]
      = .ok none :=
  correlation_miss_returns_none sEx [⟨3, "Deploy"⟩] 100
    [⟨500, "cephtest-042", 80⟩] ⟨3, "Deploy"⟩ rfl (by decide)

/-- C3: the deploy-task wait runs under the sleep-15 / 40-attempt policy;
it makes at most 40 active-task checks, exits successfully at the first
check on which the task id is absent (with one sleep between
consecutive checks and no further calls), and when the id is present on
all 40 checks it fails with the retry-exhaustion error carrying the 40
attempts made. -/
theorem deploy_wait_budget_spec (s : FOGState) (task_id : Option Int)
    (lists : Nat → List ActiveTask) :
    ((wait_for_deploy_task s task_id lists).checks ≤ 40)
    ∧ (∀ i, i < 40 →
        (∀ j, j < i → deploy_task_active s task_id (lists j) = true) →
        deploy_task_active s task_id (lists i) = false →
        wait_for_deploy_task s task_id lists = .success (i + 1) i)
    ∧ ((∀ i, i < 40 → deploy_task_active s task_id (lists i) = true) →
        wait_for_deploy_task s task_id lists = .exhausted 40 39)
    ∧ deployWaitPolicy.sleepInterval = 15
    ∧ deployWaitPolicy.maxAttempts = 40 := by
  refine ⟨?_, ?_, ?_, rfl, rfl⟩
  · have := pollFrom_checks_le
      (fun k => !(deploy_task_active s task_id (lists k))) 40 0
    simpa [wait_for_deploy_task, safe_while, deployWaitPolicy] using this
  · intro i hi hprev hnow
    have := pollFrom_success_at
      (fun k => !(deploy_task_active s task_id (lists k))) i 0 40 hi
      (fun j hj => by simp [hprev j hj])
      (by simp [hnow])
    simpa [wait_for_deploy_task, safe_while, deployWaitPolicy] using this
  · intro hall
    have := pollFrom_exhaust
      (fun k => !(deploy_task_active s task_id (lists k))) 40 0
      (by omega) (fun j hj => by simp [hall j (by simpa using hj)])
    simpa [wait_for_deploy_task, safe_while, deployWaitPolicy] using this

/-- Witness for C3: the task is active on checks 0 and 1 and absent on
check 2, so the wait stops successfully at the third check, after two
sleeps. -/
theorem deploy_wait_budget_spec_witness :
    wait_for_deploy_task sEx (some 501) listsC3 = .success 3 2 :=
  (deploy_wait_budget_spec sEx (some 501) listsC3).2.1 2 (by decide)
    (by decide) (by decide)

/-- C4: during the reachability wait (sleep-6 / 20-attempt policy), as
long as every failed attempt raises one of the caught transient kinds
(refused or unreachable connection, authentication race, nested
retry-exhaustion), no exception propagates out of the wait: the wait
returns success at the first attempt that connects, and only when all
20 attempts fail does it raise the reachability-timeout error. -/
theorem ready_wait_transient_spec (connect : Nat → ConnOutcome)
    (htrans : ∀ i, i < 20 → transientOnly (connect i) = true) :
    (∀ e c, wait_for_ready connect ≠ .raised e c)
    ∧ (∀ k, k < 20 → connect k = .connected →
        (∀ j, j < k → connect j ≠ .connected) →
        wait_for_ready connect = .ready (k + 1) k)
    ∧ ((∀ j, j < 20 → connect j ≠ .connected) →
        wait_for_ready connect = .timedOut 20 19)
    ∧ caughtByReadyWait .socketError = true
    ∧ caughtByReadyWait .noValidConnections = true
    ∧ caughtByReadyWait .authException = true
    ∧ caughtByReadyWait .maxWhileTries = true
    ∧ readyPolicy.sleepInterval = 6
    ∧ readyPolicy.maxAttempts = 20 := by
  refine ⟨?_, ?_, ?_, rfl, rfl, rfl, rfl, rfl, rfl⟩
  · intro e c
    have := readyWaitFrom_no_raise connect 20 0
      (fun j hj => by simpa using htrans j (by simpa using hj))
    simpa [wait_for_ready, readyPolicy] using this e c
  · intro k hk hc hprev
    have := readyWaitFrom_ready_at connect k 0 20 hk
      (fun j hj => ⟨by simpa using hprev j hj,
        by simpa using htrans j (by omega)⟩)
      (by simpa using hc)
    simpa [wait_for_ready, readyPolicy] using this
  · intro hall
    have := readyWaitFrom_exhaust connect 20 0 (by omega)
      (fun j hj => ⟨by simpa using hall j (by simpa using hj),
        by simpa using htrans j (by simpa using hj)⟩)
    simpa [wait_for_ready, readyPolicy] using this

/-- Witness for C4: a refused connection and an authentication race are
swallowed, and the wait succeeds at the third attempt. -/
theorem ready_wait_transient_spec_witness :
    wait_for_ready connectC4 = .ready 3 2 :=
  (ready_wait_transient_spec connectC4 (by decide)).2.1 2 (by decide)
    (by decide) (by decide)

/-- C8: every successful run of `create` produces exactly this ordered
trace: host lookup, image lookup, image assignment, task-type search,
scheduling immediately followed by the correlation call of the active
listing, then power-off and power-on, then the deploy-wait checks (at
most 40 of them), then the reachability attempts (at most 20) — so the
power cycle happens after scheduling and correlation and before either
polling wait begins. -/
theorem create_event_order (s : FOGState) (env : Env) (tr : List Ev)
    (h : create s env = .ok tr) :
    ∃ (hostId imageId ttId : Int) (n m : Nat), n ≤ 40 ∧ m ≤ 20 ∧
      tr = [Ev.hostSearch s.shortname, Ev.imageSearch (imageSearchName s),
            Ev.assignImage imageId hostId, Ev.tasktypeSearch,
            Ev.scheduleTask hostId ttId, Ev.listActive,
            Ev.powerOff, Ev.powerOn]
           ++ List.replicate n Ev.listActive
           ++ List.replicate m Ev.connectAttempt := by
  unfold create at h
  cases h1 : get_host_data env.hostResp with
  | error e => rw [h1] at h; cases h
  | ok host =>
  rw [h1] at h
  cases h2 : get_image_data env.imageResp with
  | error e => rw [h2] at h; cases h
  | ok image =>
  rw [h2] at h
  cases h3 : findDeployTasktype env.tasktypes with
  | error e => rw [h3] at h; cases h
  | ok tt =>
  rw [h3] at h
  cases h4 : runDeployWait (wait_for_deploy_task s
      (correlateLoop env.now (get_deploy_tasks s (env.activeTasks 0)))
      (fun i => env.activeTasks (i + 1))) with
  | error e => rw [h4] at h; cases h
  | ok dw =>
  rw [h4] at h
  cases h5 : runReadyWait (wait_for_ready env.connect) with
  | error e => rw [h5] at h; cases h
  | ok rw2 =>
  rw [h5] at h
  simp only [Except.ok.injEq] at h
  subst h
  refine ⟨host.id, image.id, tt.id, dw, rw2, ?_, ?_, rfl⟩
  · cases hr : wait_for_deploy_task s
        (correlateLoop env.now (get_deploy_tasks s (env.activeTasks 0)))
        (fun i => env.activeTasks (i + 1)) with
    | success c sl =>
      rw [hr] at h4
      simp only [runDeployWait, Except.ok.injEq] at h4
      subst h4
      have := pollFrom_checks_le
        (fun i => !(deploy_task_active s
          (correlateLoop env.now (get_deploy_tasks s (env.activeTasks 0)))
          (env.activeTasks (i + 1)))) 40 0
      rw [show wait_for_deploy_task s
            (correlateLoop env.now (get_deploy_tasks s (env.activeTasks 0)))
            (fun i => env.activeTasks (i + 1))
          = pollFrom (fun i => !(deploy_task_active s
              (correlateLoop env.now (get_deploy_tasks s (env.activeTasks 0)))
              (env.activeTasks (i + 1)))) 0 40 from rfl] at hr
      rw [hr] at this
      simpa [PollResult.checks] using this
    | exhausted a sl =>
      rw [hr] at h4
      simp [runDeployWait] at h4
  · cases hr : wait_for_ready env.connect with
    | ready c sl =>
      rw [hr] at h5
      simp only [runReadyWait, Except.ok.injEq] at h5
      subst h5
      exact readyWaitFrom_ready_checks_le env.connect 20 0 c sl hr
    | timedOut a sl =>
      rw [hr] at h5
      simp [runReadyWait] at h5
    | raised e c =>
      rw [hr] at h5
      simp [runReadyWait] at h5

/-- Witness for C8: in `envC8` the run succeeds with two deploy-wait
checks and two connection attempts, and the trace has the claimed
shape. -/
theorem create_event_order_witness :
    ∃ (hostId imageId ttId : Int) (n m : Nat), n ≤ 40 ∧ m ≤ 20 ∧
      ([Ev.hostSearch "cephtest-042", Ev.imageSearch "smithi_ubuntu_20.04",
        Ev.assignImage 9 17, Ev.tasktypeSearch, Ev.scheduleTask 17 3,
        Ev.listActive, Ev.powerOff, Ev.powerOn,
        Ev.listActive, Ev.listActive, Ev.connectAttempt, Ev.connectAttempt]
        : List Ev)
      = [Ev.hostSearch sEx.shortname, Ev.imageSearch (imageSearchName sEx),
         Ev.assignImage imageId hostId, Ev.tasktypeSearch,
         Ev.scheduleTask hostId ttId, Ev.listActive,
         Ev.powerOff, Ev.powerOn]
        ++ List.replicate n Ev.listActive
        ++ List.replicate m Ev.connectAttempt :=
  create_event_order sEx envC8
    [Ev.hostSearch "cephtest-042", Ev.imageSearch "smithi_ubuntu_20.04",
     Ev.assignImage 9 17, Ev.tasktypeSearch, Ev.scheduleTask 17 3,
     Ev.listActive, Ev.powerOff, Ev.powerOn,
     Ev.listActive, Ev.listActive, Ev.connectAttempt, Ev.connectAttempt]
    rfl

end Fog
